import Mathlib

/-!
Verification development for PyazDB, a small distributed in-memory
key-value store replicated through a Raft-style consensus log.

The Go sources are shallowly embedded: the in-memory map becomes a
function from keys to optional values, handlers become pure functions of
their request data and of the results of their effectful calls (leader
lookup, forwarding, store proposals), and machine integers become
naturals reduced modulo 2^64 where the Go code uses uint64 counters.
-/

/-- The data map of MemStore (internal/store): a Go map from string keys
to string values, embedded as a function to optional values. -/
def MemStore : Type := String → Option String

/-- A fresh store, as produced by NewMemStore: the empty map. -/
def MemStore.empty : MemStore := fun _ => none

/-- MemStore.Get: map lookup returning the value and true when the key is
present, and the zero value together with false otherwise. -/
def MemStore.Get (s : MemStore) (key : String) : String × Bool :=
  match s key with
  | some v => (v, true)
  | none => ("", false)

/-- MemStore.Set: insert-or-replace, returning the updated map and the
error result, which the Go code always makes nil. -/
def MemStore.Set (s : MemStore) (key value : String) : MemStore × Option String :=
  (fun k => if k = key then some value else s k, none)

/-- MemStore.Delete: remove the key, returning the updated map and the
error result, which the Go code always makes nil, present key or not. -/
def MemStore.Delete (s : MemStore) (key : String) : MemStore × Option String :=
  (fun k => if k = key then none else s k, none)

/-- RaftCommand (internal/store/raftstore.go): the tagged record carried
by a replicated log entry. The Go struct has exported fields Op, Key and
Value with no json tags and no omitempty option. -/
structure RaftCommand where
  Op : String
  Key : String
  Value : String
deriving DecidableEq

/-- The field list that encoding/json produces for a RaftCommand: every
exported field in declaration order, since no field carries omitempty.
Key material is kept structured rather than rendered to bytes. -/
def RaftCommand.marshal (c : RaftCommand) : List (String × String) :=
  [("Op", c.Op), ("Key", c.Key), ("Value", c.Value)]

/-- The command built by RaftStore.Set before proposing to Raft. -/
def RaftStore.setCommand (key value : String) : RaftCommand :=
  { Op := "set", Key := key, Value := value }

/-- The command built by RaftStore.Delete before proposing to Raft; the
Value field is left at its zero value. -/
def RaftStore.deleteCommand (key : String) : RaftCommand :=
  { Op := "delete", Key := key, Value := "" }

/-- RaftStore.Apply: the FSM apply path. The decoded command is
dispatched on its Op tag; "set" and "delete" mutate the wrapped MemStore
and any other tag falls through the switch without touching the map. -/
def RaftStore.Apply (m : MemStore) (cmd : RaftCommand) : MemStore :=
  if cmd.Op = "set" then (MemStore.Set m cmd.Key cmd.Value).1
  else if cmd.Op = "delete" then (MemStore.Delete m cmd.Key).1
  else m

/-- A client-level mutation submitted through RaftStore.Set or
RaftStore.Delete. -/
inductive ClientOp where
  | set (key value : String)
  | del (key : String)
deriving DecidableEq

/-- The log entry a client operation becomes on the propose side. -/
def ClientOp.encode : ClientOp → RaftCommand
  | .set k v => RaftStore.setCommand k v
  | .del k => RaftStore.deleteCommand k

/-- Applying a whole sequence of proposed operations through the FSM
apply path, in log order. -/
def applyAll (m : MemStore) (ops : List ClientOp) : MemStore :=
  ops.foldl (fun acc op => RaftStore.Apply acc op.encode) m

/-- Specification-side view of a sequence of operations at one key: none
when no operation in the list touches k, some (some v) when the last
operation touching k is a set of v, and some none when it is a delete. -/
def lastTouch : List ClientOp → String → Option (Option String)
  | [], _ => none
  | op :: rest, k =>
    match lastTouch rest k with
    | some r => some r
    | none =>
      match op with
      | .set k2 v => if k2 = k then some (some v) else none
      | .del k2 => if k2 = k then some none else none

/-- The value of the last set at key k that is not followed by a later
delete of k, when such a set exists. -/
def lastWrite (ops : List ClientOp) (k : String) : Option String :=
  match lastTouch ops k with
  | some (some v) => some v
  | _ => none

/-- A client-visible HTTP response: status code and body. Headers are
not modelled; the handlers under study either set a constant content
type or copy headers only after the status line is written, where the
net/http package discards them. The trailing newline that http.Error
appends to its message is elided uniformly. -/
structure HttpResp where
  status : Nat
  body : String
deriving DecidableEq

/-- The reply http.Error produces: the message as body with the code. -/
def httpError (msg : String) (code : Nat) : HttpResp :=
  { status := code, body := msg }

/-- An outbound forwarded request: method, content type and body. -/
structure HttpRequest where
  method : String
  contentType : String
  body : String
deriving DecidableEq

/-- The request a non-leader builds when forwarding a set or delete: the
http.Post call fixes the method to POST and the content type to
application/json, and streams the incoming body through. -/
def Server.forwardSetRequest (reqBody : String) : HttpRequest :=
  { method := "POST", contentType := "application/json", body := reqBody }

/-- The request a non-leader builds when forwarding a delete: the same
http.Post call shape against the /delete path of the leader, with the
method fixed to POST, the content type to application/json, and the
incoming body streamed through. -/
def Server.forwardDeleteRequest (reqBody : String) : HttpRequest :=
  { method := "POST", contentType := "application/json", body := reqBody }

/-- How handleGet relays a leader response obtained while forwarding:
the status code is written first, then an empty write, and the body is
copied only when the status is 200 and then only from one Read into a
4096-byte buffer, of which readLen bytes arrive. -/
def Server.relayGetResponse (resp : HttpResp) (readLen : Nat) : HttpResp :=
  { status := resp.status,
    body := if resp.status = 200 then resp.body.take (min readLen 4096) else "" }

/-- How handleSet and handleDelete relay a leader response obtained
while forwarding: only the status code is written back; the body of the
leader response is never read. -/
def Server.relayStatusOnly (resp : HttpResp) : HttpResp :=
  { status := resp.status, body := "" }

/-- Decoded JSON body of a /set request. -/
structure SetRequest where
  key : String
  value : String
deriving DecidableEq

/-- Decoded JSON body of a /delete request. -/
structure DeleteRequest where
  key : String
deriving DecidableEq

/-- The error kinds a Raft proposal can surface through f.Error() on the
submit path, per the replicated-log contract: lost leadership, commit
timeout, or an internal failure. -/
inductive StoreErr where
  | notLeader
  | timeout
  | internal
deriving DecidableEq

/-- Server.handleGet. The effectful observations of the handler are
passed as arguments: nonLeader is the value of the check that a Raft
node exists and is not in the leader state, leaderHTTP the result of the
discovery lookup, fwd the outcome of the forwarded http.Get, readLen the
byte count its single body read returns, and m the local store. -/
def Server.handleGet (method : String) (nonLeader : Bool)
    (leaderHTTP : Option String) (fwd : Except String HttpResp)
    (readLen : Nat) (key : String) (m : MemStore) : HttpResp :=
  if method ≠ "GET" then httpError "Method not allowed" 405
  else if nonLeader then
    match leaderHTTP with
    | none => httpError "Not leader and no leader known" 503
    | some _ =>
      match fwd with
      | .error e => httpError ("Failed to forward to leader: " ++ e) 502
      | .ok resp => Server.relayGetResponse resp readLen
  else if key = "" then httpError "Missing key parameter" 400
  else
    match MemStore.Get m key with
    | (v, true) => { status := 200, body := v }
    | (_, false) => httpError "Key not found" 404

/-- Server.handleSet. body is the decode result of the JSON request body
and storeResult the error value of the Store.Set proposal. -/
def Server.handleSet (method : String) (nonLeader : Bool)
    (leaderHTTP : Option String) (fwd : Except String HttpResp)
    (body : Option SetRequest) (storeResult : Option StoreErr) : HttpResp :=
  if method ≠ "POST" then httpError "Method not allowed" 405
  else if nonLeader then
    match leaderHTTP with
    | none => httpError "Not leader and no leader known" 503
    | some _ =>
      match fwd with
      | .error e => httpError ("Failed to forward to leader: " ++ e) 502
      | .ok resp => Server.relayStatusOnly resp
  else
    match body with
    | none => httpError "Invalid JSON" 400
    | some req =>
      if req.key = "" then httpError "Missing key field" 400
      else
        match storeResult with
        | some _ => httpError "Failed to set key" 500
        | none => { status := 204, body := "" }

/-- Server.handleDelete, shaped like handleSet with its own messages. -/
def Server.handleDelete (method : String) (nonLeader : Bool)
    (leaderHTTP : Option String) (fwd : Except String HttpResp)
    (body : Option DeleteRequest) (storeResult : Option StoreErr) : HttpResp :=
  if method ≠ "POST" then httpError "Method not allowed" 405
  else if nonLeader then
    match leaderHTTP with
    | none => httpError "Not leader and no leader known" 503
    | some _ =>
      match fwd with
      | .error e => httpError ("Failed to forward to leader: " ++ e) 502
      | .ok resp => Server.relayStatusOnly resp
  else
    match body with
    | none => httpError "Invalid JSON" 400
    | some req =>
      if req.key = "" then httpError "Missing key field" 400
      else
        match storeResult with
        | some _ => httpError "Failed to delete key" 500
        | none => { status := 204, body := "" }

/-- The 64-bit modulus of the atomic uint64 counters. -/
def U64 : Nat := 2 ^ 64

/-- Metrics (internal/store/instrumented.go): six uint64 counters. -/
structure Metrics where
  GetCount : Nat
  SetCount : Nat
  DeleteCount : Nat
  GetLatencyNs : Nat
  SetLatencyNs : Nat
  DeleteLatencyNs : Nat
deriving DecidableEq

/-- The operations of an arbitrary kv.Store implementation over a state
type, with the error result of Set and Delete as an optional message. -/
structure StoreOps (σ : Type) where
  Get : σ → String → String × Bool
  Set : σ → String → String → σ × Option String
  Delete : σ → String → σ × Option String

/-- InstrumentedStore: the wrapped store state next to its metrics. -/
structure InstrumentedStore (σ : Type) where
  store : σ
  metrics : Metrics

/-- InstrumentedStore.Get: delegate to the wrapped store, record the
elapsed nanoseconds, and return exactly the delegated pair. -/
def InstrumentedStore.Get {σ : Type} (ops : StoreOps σ)
    (s : InstrumentedStore σ) (key : String) (elapsed : Nat) :
    (String × Bool) × InstrumentedStore σ :=
  let r := ops.Get s.store key
  (r, { s with metrics :=
    { s.metrics with
      GetCount := (s.metrics.GetCount + 1) % U64,
      GetLatencyNs := (s.metrics.GetLatencyNs + elapsed) % U64 } })

/-- InstrumentedStore.Set: delegate, record timing, return the error. -/
def InstrumentedStore.Set {σ : Type} (ops : StoreOps σ)
    (s : InstrumentedStore σ) (key value : String) (elapsed : Nat) :
    Option String × InstrumentedStore σ :=
  let r := ops.Set s.store key value
  (r.2, { store := r.1, metrics :=
    { s.metrics with
      SetCount := (s.metrics.SetCount + 1) % U64,
      SetLatencyNs := (s.metrics.SetLatencyNs + elapsed) % U64 } })

/-- InstrumentedStore.Delete: delegate, record timing, return error. -/
def InstrumentedStore.Delete {σ : Type} (ops : StoreOps σ)
    (s : InstrumentedStore σ) (key : String) (elapsed : Nat) :
    Option String × InstrumentedStore σ :=
  let r := ops.Delete s.store key
  (r.2, { store := r.1, metrics :=
    { s.metrics with
      DeleteCount := (s.metrics.DeleteCount + 1) % U64,
      DeleteLatencyNs := (s.metrics.DeleteLatencyNs + elapsed) % U64 } })

/-- avgLatency: guarded uint64 division; the quotient is the 64-bit
pattern the returned time.Duration holds. -/
def InstrumentedStore.avgLatency (totalNs count : Nat) : Nat :=
  if count = 0 then 0 else totalNs / count

/-- MetricsSnapshot: the point-in-time view GetMetrics returns. -/
structure MetricsSnapshot where
  GetCount : Nat
  SetCount : Nat
  DeleteCount : Nat
  GetAvgLatency : Nat
  SetAvgLatency : Nat
  DeleteAvgLatency : Nat
deriving DecidableEq

/-- InstrumentedStore.GetMetrics: load every counter and compute the
three averages with the guarded division. -/
def InstrumentedStore.GetMetrics {σ : Type} (s : InstrumentedStore σ) :
    MetricsSnapshot :=
  { GetCount := s.metrics.GetCount,
    SetCount := s.metrics.SetCount,
    DeleteCount := s.metrics.DeleteCount,
    GetAvgLatency :=
      InstrumentedStore.avgLatency s.metrics.GetLatencyNs s.metrics.GetCount,
    SetAvgLatency :=
      InstrumentedStore.avgLatency s.metrics.SetLatencyNs s.metrics.SetCount,
    DeleteAvgLatency :=
      InstrumentedStore.avgLatency s.metrics.DeleteLatencyNs s.metrics.DeleteCount }

/-- LeaderInfo (cmd/mandi): the leader record held by the discovery
registry, with times in integer nanoseconds. -/
structure LeaderInfo where
  ID : String
  Addr : String
  HTTPAddr : String
  GRPCAddr : String
  Term : Nat
  UpdatedAt : Nat
deriving DecidableEq

/-- leaderTTL: 10 seconds in nanoseconds. -/
def leaderTTL : Nat := 10000000000

/-- The discovery registry state named Store in cmd/mandi, restricted to
the single leader-record slot the leader endpoints touch. -/
structure MandiStore where
  leader : Option LeaderInfo

/-- Store.getLeader: reply 404 leader-not-available when the slot is
empty or the record is older than the TTL, and the record otherwise.
time.Since(UpdatedAt) > leaderTTL is now - UpdatedAt > leaderTTL. -/
def MandiStore.getLeader (now : Nat) (s : MandiStore) :
    Except (Nat × String) LeaderInfo :=
  match s.leader with
  | none => Except.error (404, "leader not available")
  | some l =>
    if leaderTTL < now - l.UpdatedAt then Except.error (404, "leader not available")
    else Except.ok l

/-- Store.putLeader: a body that fails to decode replies 400 and leaves
the slot alone; a decoded record replaces the slot with UpdatedAt
overwritten to now, then replies 204. -/
def MandiStore.putLeader (now : Nat) (s : MandiStore) (body : Option LeaderInfo) :
    MandiStore × Nat :=
  match body with
  | none => (s, 400)
  | some info => ({ leader := some { info with UpdatedAt := now } }, 204)

/-- A sample leader record, freshly stamped. -/
def sampleLeader : LeaderInfo := ⟨"n1", "a", "h1", "g1", 1, 0⟩

/-- A second sample record carrying a client-supplied timestamp. -/
def sampleLeader2 : LeaderInfo := ⟨"n2", "b", "h2", "g2", 2, 77⟩

/-- A registry state holding the first sample record. -/
def sampleRegistry : MandiStore := { leader := some sampleLeader }

/-- A sample instrumented store over a unit-state backend, with a zero
get count next to nonzero latency sums. -/
def sampleInstrumented : InstrumentedStore Unit := ⟨(), ⟨0, 2, 0, 7, 9, 0⟩⟩

theorem MemStore.Get_Set (m : MemStore) (k2 v k : String) :
    MemStore.Get (MemStore.Set m k2 v).1 k =
      if k = k2 then (v, true) else MemStore.Get m k := by
  by_cases h : k = k2 <;> simp [MemStore.Get, MemStore.Set, h]

theorem MemStore.Get_Delete (m : MemStore) (k2 k : String) :
    MemStore.Get (MemStore.Delete m k2).1 k =
      if k = k2 then ("", false) else MemStore.Get m k := by
  by_cases h : k = k2 <;> simp [MemStore.Get, MemStore.Delete, h]

theorem get_applyAll (ops : List ClientOp) : ∀ (m : MemStore) (k : String),
    MemStore.Get (applyAll m ops) k =
      match lastTouch ops k with
      | some (some v) => (v, true)
      | some none => ("", false)
      | none => MemStore.Get m k := by
  induction ops with
  | nil => intro m k; rfl
  | cons op rest ih =>
    intro m k
    have happ : applyAll m (op :: rest) =
        applyAll (RaftStore.Apply m op.encode) rest := rfl
    rw [happ, ih]
    cases hrt : lastTouch rest k with
    | some r =>
      cases r <;> simp [lastTouch, hrt]
    | none =>
      cases op with
      | set k2 v =>
        have henc : RaftStore.Apply m (ClientOp.set k2 v).encode =
            (MemStore.Set m k2 v).1 := rfl
        simp only [lastTouch, hrt, henc, MemStore.Get_Set]
        by_cases hk : k = k2
        · simp [hk]
        · simp [hk, Ne.symm hk]
      | del k2 =>
        have henc : RaftStore.Apply m (ClientOp.del k2).encode =
            (MemStore.Delete m k2).1 := rfl
        simp only [lastTouch, hrt, henc, MemStore.Get_Delete]
        by_cases hk : k = k2
        · simp [hk]
        · simp [hk, Ne.symm hk]

/-- C1: for every finite sequence of set/delete operations applied
through the FSM apply path to a fresh in-memory store, a subsequent get
of any key k returns (v, true) exactly when v is the value of the last
set of k not followed by a later delete of k, and ("", false) when no
such set exists. -/
theorem fsm_apply_get_last_write (ops : List ClientOp) (k : String) :
    MemStore.Get (applyAll MemStore.empty ops) k =
      match lastWrite ops k with
      | some v => (v, true)
      | none => ("", false) := by
  rw [get_applyAll, lastWrite]
  cases h : lastTouch ops k with
  | some r => cases r <;> simp
  | none => simp [MemStore.Get, MemStore.empty]

/-- C7: set and delete are idempotent on the store. Doubling a delete of
k leaves the map of a single delete, doubling a set of k to v leaves the
map with k bound to v, and every one of the four calls returns a nil
error, in particular a delete of an absent key. -/
theorem set_delete_idempotent (m : MemStore) (k v : String) :
    (MemStore.Set (MemStore.Set m k v).1 k v).1 = (MemStore.Set m k v).1 ∧
    (MemStore.Set (MemStore.Set m k v).1 k v).1 k = some v ∧
    (MemStore.Set m k v).2 = none ∧
    (MemStore.Set (MemStore.Set m k v).1 k v).2 = none ∧
    (MemStore.Delete (MemStore.Delete m k).1 k).1 = (MemStore.Delete m k).1 ∧
    (MemStore.Delete m k).2 = none ∧
    (MemStore.Delete (MemStore.Delete m k).1 k).2 = none := by
  refine ⟨?_, ?_, rfl, rfl, ?_, rfl, rfl⟩
  · funext q
    by_cases h : q = k <;> simp [MemStore.Set, h]
  · simp [MemStore.Set]
  · funext q
    by_cases h : q = k <;> simp [MemStore.Delete, h]

/-- C8: a decoded log entry whose Op tag is neither set nor delete falls
through the switch in RaftStore.Apply and leaves the key-value map
completely unchanged. -/
theorem apply_unknown_op_noop (m : MemStore) (cmd : RaftCommand)
    (hset : cmd.Op ≠ "set") (hdel : cmd.Op ≠ "delete") :
    RaftStore.Apply m cmd = m := by
  simp [RaftStore.Apply, hset, hdel]

theorem apply_unknown_op_noop_witness :
    ("noop" : String) ≠ "set" ∧ ("noop" : String) ≠ "delete" ∧
    RaftStore.Apply MemStore.empty { Op := "noop", Key := "k", Value := "" } =
      MemStore.empty :=
  ⟨by decide, by decide,
    apply_unknown_op_noop MemStore.empty
      { Op := "noop", Key := "k", Value := "" } (by decide) (by decide)⟩

/-- C5 counterexample: the encoded entry of a delete proposal does carry
a Value field, because the RaftCommand struct puts no omitempty option on
Value, refuting value-present-iff-op-is-set as stated. -/
theorem delete_entry_carries_value_field :
    ("Value", "") ∈ (RaftStore.deleteCommand "k").marshal ∧
    (RaftStore.deleteCommand "k").Op ≠ "set" := by
  decide

/-- C5 amended: every encoded entry carries the fields Op, Key and Value
in declaration order; a set proposal yields op set with key and value,
and a delete proposal yields op delete with the key and an empty Value
field rather than an absent one. -/
theorem encoded_entry_fields (k v : String) :
    (RaftStore.setCommand k v).marshal = [("Op", "set"), ("Key", k), ("Value", v)] ∧
    (RaftStore.deleteCommand k).marshal =
      [("Op", "delete"), ("Key", k), ("Value", "")] :=
  ⟨rfl, rfl⟩

/-- C2 counterexample: the follower relay for /set discards the body of
the leader response, so a leader reply of 500 with a diagnostic body is
relayed with an empty body and is not byte-equivalent. -/
theorem relay_drops_leader_body :
    Server.relayStatusOnly { status := 500, body := "Failed to set key" } ≠
      { status := 500, body := "Failed to set key" } := by
  decide

/-- C2 amended: forwarding preserves the request method, content type
and body for set and delete, and the relayed response preserves the
status code of the leader response but not its body: the set and delete
relays drop the body entirely, and the get relay copies at most the
first 4096 bytes of one read and only when the status is 200. -/
theorem forwarding_relay_amended (resp : HttpResp) (leaderAddr : String)
    (readLen : Nat) (key : String) (m : MemStore) (body : Option SetRequest)
    (dbody : Option DeleteRequest) (se dse : Option StoreErr) (reqBody : String) :
    (Server.handleGet "GET" true (some leaderAddr) (.ok resp) readLen key m).status =
      resp.status ∧
    (Server.handleGet "GET" true (some leaderAddr) (.ok resp) readLen key m).body =
      (if resp.status = 200 then resp.body.take (min readLen 4096) else "") ∧
    (Server.handleSet "POST" true (some leaderAddr) (.ok resp) body se).status =
      resp.status ∧
    (Server.handleSet "POST" true (some leaderAddr) (.ok resp) body se).body = "" ∧
    (Server.handleDelete "POST" true (some leaderAddr) (.ok resp) dbody dse).status =
      resp.status ∧
    (Server.handleDelete "POST" true (some leaderAddr) (.ok resp) dbody dse).body = "" ∧
    Server.forwardSetRequest reqBody =
      { method := "POST", contentType := "application/json", body := reqBody } ∧
    Server.forwardDeleteRequest reqBody =
      { method := "POST", contentType := "application/json", body := reqBody } :=
  ⟨rfl, rfl, rfl, rfl, rfl, rfl, rfl, rfl⟩

/-- C3 counterexample: a timeout on the set proposal is answered with
status 500 Failed to set key, not with 503 as the claim states. -/
theorem set_timeout_yields_500 :
    Server.handleSet "POST" false none (.error "")
        (some { key := "k", value := "v" }) (some .timeout) =
      httpError "Failed to set key" 500 ∧
    (Server.handleSet "POST" false none (.error "")
        (some { key := "k", value := "v" }) (some .timeout)).status ≠ 503 := by
  decide

/-- C3 amended: when a set or delete proposal submitted on the leader
fails, the handler replies 500 with a fixed message whatever the error
kind, lost leadership and commit timeout included; no retried leader
lookup takes place on this path. -/
theorem proposal_error_always_500 (leaderHTTP : Option String)
    (fwd : Except String HttpResp) (req : SetRequest) (dreq : DeleteRequest)
    (e1 e2 : StoreErr) (hk : req.key ≠ "") (hdk : dreq.key ≠ "") :
    Server.handleSet "POST" false leaderHTTP fwd (some req) (some e1) =
      httpError "Failed to set key" 500 ∧
    Server.handleDelete "POST" false leaderHTTP fwd (some dreq) (some e2) =
      httpError "Failed to delete key" 500 := by
  constructor <;> simp [Server.handleSet, Server.handleDelete, hk, hdk]

theorem proposal_error_always_500_witness :
    ({ key := "k", value := "v" } : SetRequest).key ≠ "" ∧
    ({ key := "k" } : DeleteRequest).key ≠ "" ∧
    Server.handleSet "POST" false none (.error "")
        (some { key := "k", value := "v" }) (some .notLeader) =
      httpError "Failed to set key" 500 ∧
    Server.handleDelete "POST" false none (.error "")
        (some { key := "k" }) (some .timeout) =
      httpError "Failed to delete key" 500 :=
  ⟨by decide, by decide,
    (proposal_error_always_500 none (.error "") { key := "k", value := "v" }
      { key := "k" } .notLeader .timeout (by decide) (by decide)).1,
    (proposal_error_always_500 none (.error "") { key := "k", value := "v" }
      { key := "k" } .notLeader .timeout (by decide) (by decide)).2⟩

/-- C4 counterexample: a follower that knows no leader replies 503 to a
/get request with the key parameter missing, because the role check runs
before validation; the claim expects 400. -/
theorem malformed_request_on_leaderless_follower_503 :
    Server.handleGet "GET" true none (.error "") 0 "" MemStore.empty =
      httpError "Not leader and no leader known" 503 ∧
    (Server.handleGet "GET" true none (.error "") 0 "" MemStore.empty).status ≠ 400 := by
  constructor
  · rfl
  · decide

/-- C4 amended: on a node serving locally, that is one whose Raft check
does not divert the request, malformed input is answered 400 with a
short message: a missing key parameter on /get, an undecodable JSON body
or a missing key field on /set and /delete. The role check precedes this
validation, so a non-leader node that knows no leader replies 503 even
to a malformed request. -/
theorem validation_on_leader_only (leaderHTTP : Option String)
    (fwd : Except String HttpResp) (readLen : Nat) (m : MemStore)
    (se : Option StoreErr) (key : String) (req : SetRequest)
    (dreq : DeleteRequest) (hkey : key = "") (hreq : req.key = "")
    (hdreq : dreq.key = "") :
    Server.handleGet "GET" false leaderHTTP fwd readLen key m =
      httpError "Missing key parameter" 400 ∧
    Server.handleSet "POST" false leaderHTTP fwd none se =
      httpError "Invalid JSON" 400 ∧
    Server.handleSet "POST" false leaderHTTP fwd (some req) se =
      httpError "Missing key field" 400 ∧
    Server.handleDelete "POST" false leaderHTTP fwd none se =
      httpError "Invalid JSON" 400 ∧
    Server.handleDelete "POST" false leaderHTTP fwd (some dreq) se =
      httpError "Missing key field" 400 ∧
    Server.handleGet "GET" true none fwd readLen key m =
      httpError "Not leader and no leader known" 503 ∧
    Server.handleSet "POST" true none fwd none se =
      httpError "Not leader and no leader known" 503 := by
  obtain ⟨rk, rv⟩ := req
  obtain ⟨dk⟩ := dreq
  have hr : rk = "" := hreq
  have hd : dk = "" := hdreq
  subst hkey hr hd
  exact ⟨rfl, rfl, rfl, rfl, rfl, rfl, rfl⟩

theorem validation_on_leader_only_witness :
    ("" : String) = "" ∧
    ({ key := "", value := "v" } : SetRequest).key = "" ∧
    ({ key := "" } : DeleteRequest).key = "" ∧
    Server.handleGet "GET" false none (.error "") 0 "" MemStore.empty =
      httpError "Missing key parameter" 400 ∧
    Server.handleSet "POST" false none (.error "")
        (some { key := "", value := "v" }) none =
      httpError "Missing key field" 400 :=
  ⟨rfl, rfl, rfl,
    (validation_on_leader_only none (.error "") 0 MemStore.empty none ""
      { key := "", value := "v" } { key := "" } rfl rfl rfl).1,
    (validation_on_leader_only none (.error "") 0 MemStore.empty none ""
      { key := "", value := "v" } { key := "" } rfl rfl rfl).2.2.1⟩

/-- C6: the registry returns the stored leader record exactly when now
minus its UpdatedAt stamp is within the 10 second TTL, answers 404
leader-not-available on a stale record or an empty slot, and putLeader
replaces the slot with the record restamped UpdatedAt equal to now,
whatever timestamp the client supplied. -/
theorem mandi_leader_record (now : Nat) (s : MandiStore) :
    (∀ l, s.leader = some l →
        (MandiStore.getLeader now s = Except.ok l ↔ now - l.UpdatedAt ≤ leaderTTL)) ∧
    (∀ l, s.leader = some l → leaderTTL < now - l.UpdatedAt →
        MandiStore.getLeader now s = Except.error (404, "leader not available")) ∧
    (s.leader = none →
        MandiStore.getLeader now s = Except.error (404, "leader not available")) ∧
    (∀ info, MandiStore.putLeader now s (some info) =
        ({ leader := some { info with UpdatedAt := now } }, 204)) := by
  refine ⟨?_, ?_, ?_, fun info => rfl⟩
  · intro l hl
    have h1 : MandiStore.getLeader now s =
        if leaderTTL < now - l.UpdatedAt then
          Except.error (404, "leader not available")
        else Except.ok l := by
      simp [MandiStore.getLeader, hl]
    rw [h1]
    by_cases hc : leaderTTL < now - l.UpdatedAt
    · simp [hc]
      omega
    · simp [hc]
      omega
  · intro l hl hgt
    simp [MandiStore.getLeader, hl, hgt]
  · intro hnone
    simp [MandiStore.getLeader, hnone]

theorem mandi_leader_record_witness :
    sampleRegistry.leader = some sampleLeader ∧
    MandiStore.getLeader 5 sampleRegistry = Except.ok sampleLeader ∧
    MandiStore.putLeader 5 sampleRegistry (some sampleLeader2) =
      ({ leader := some { sampleLeader2 with UpdatedAt := 5 } }, 204) :=
  ⟨rfl,
    ((mandi_leader_record 5 sampleRegistry).1 sampleLeader rfl).mpr (by decide),
    (mandi_leader_record 5 sampleRegistry).2.2.2 sampleLeader2⟩

/-- C9: the metrics wrapper is a pass-through. Get returns exactly the
pair of the wrapped Get, Set and Delete return exactly the error of the
wrapped call, and the wrapped store state after Set and Delete is
exactly the state the wrapped call produced. -/
theorem instrumented_passthrough {σ : Type} (ops : StoreOps σ)
    (s : InstrumentedStore σ) (key value : String) (elapsed : Nat) :
    (InstrumentedStore.Get ops s key elapsed).1 = ops.Get s.store key ∧
    (InstrumentedStore.Set ops s key value elapsed).1 =
      (ops.Set s.store key value).2 ∧
    (InstrumentedStore.Set ops s key value elapsed).2.store =
      (ops.Set s.store key value).1 ∧
    (InstrumentedStore.Delete ops s key elapsed).1 = (ops.Delete s.store key).2 ∧
    (InstrumentedStore.Delete ops s key elapsed).2.store =
      (ops.Delete s.store key).1 :=
  ⟨rfl, rfl, rfl, rfl, rfl⟩

/-- C10: the snapshot never divides by zero; for each operation class a
zero count reports an average of 0 and a nonzero count reports the
cumulative latency divided by the count, and GetMetrics is defined for
every counter state. -/
theorem avg_latency_total {σ : Type} (s : InstrumentedStore σ) :
    ((InstrumentedStore.GetMetrics s).GetAvgLatency =
      if s.metrics.GetCount = 0 then 0
      else s.metrics.GetLatencyNs / s.metrics.GetCount) ∧
    ((InstrumentedStore.GetMetrics s).SetAvgLatency =
      if s.metrics.SetCount = 0 then 0
      else s.metrics.SetLatencyNs / s.metrics.SetCount) ∧
    ((InstrumentedStore.GetMetrics s).DeleteAvgLatency =
      if s.metrics.DeleteCount = 0 then 0
      else s.metrics.DeleteLatencyNs / s.metrics.DeleteCount) ∧
    (s.metrics.GetCount = 0 → (InstrumentedStore.GetMetrics s).GetAvgLatency = 0) ∧
    (s.metrics.GetCount ≠ 0 →
      (InstrumentedStore.GetMetrics s).GetAvgLatency =
        s.metrics.GetLatencyNs / s.metrics.GetCount) := by
  refine ⟨rfl, rfl, rfl, fun h => ?_, fun h => ?_⟩
  · simp [InstrumentedStore.GetMetrics, InstrumentedStore.avgLatency, h]
  · simp [InstrumentedStore.GetMetrics, InstrumentedStore.avgLatency, h]

theorem avg_latency_total_witness :
    sampleInstrumented.metrics.GetCount = 0 ∧
    (InstrumentedStore.GetMetrics sampleInstrumented).GetAvgLatency = 0 :=
  ⟨rfl, (avg_latency_total sampleInstrumented).2.2.2.1 rfl⟩
